import Mathlib

/-!
# Verification of the monorepo orchestrator scripts

Shallow embedding of the two entry-point scripts of this repository:

* `CreateWorktree` embeds the per-branch worktree-creation script
  (`src/unnamed/part_000`: `loadConfig`, `sanitizeBranchName`, `fetchLatest`,
  `branchExists`, `createWorktree`, `createTrackingBranch`,
  `installDependencies`, `main`).
* `Bootstrap` embeds `src/orchestration/src/bootstrap.ts`
  (`loadConfig`, `cloneBareRepo`, `verifyWorktreePointsToOurBare`,
  `createWorktree`, `enableCorepack`, `installDependencies`, `main`).

Modelling choices, each recorded next to the definition it concerns:

* Strings are Lean `String`s (lists of characters); the JavaScript regex
  replacements of `sanitizeBranchName` are rendered character by character,
  which is exact because both patterns match single characters.
* External commands (`execSync`) are not executed; instead each procedure
  returns the ordered list of the commands it would issue (`Cmd`) together
  with its process outcome (`Outcome`).  Whether a given command would
  succeed is an input, a field of the environment record, as is every
  filesystem query (`existsSync`, `readFileSync`) the scripts make.
* `process.exit(1)` and an uncaught exception from `run` both terminate the
  Node process with a non-zero status; they are modelled as
  `Outcome.exit1 r` where `r : ExitReason` identifies the diagnostic printed
  at that exit site.  Console output that does not change control flow
  (logs and warnings) is not modelled.
* `path.join` is modelled for the shapes the scripts build (an absolute
  root joined with relative, slash-free segments): an empty segment leaves
  the path unchanged, exactly as `path.join(p, "")` returns `p`; dot-segment
  normalisation never arises in these scripts and is not modelled.
* The configuration file's parsed content is an optional `RawConfig`
  (`none` models a `JSON.parse` failure); optional JSON fields are `Option`
  values, and JavaScript string falsiness (`!s` true exactly on the empty
  string) is rendered by explicit `= ""` tests.
-/

/-- One external command issued through `run`/`execSync`, with the data that
the scripts interpolate into the command string. -/
inductive Cmd where
  | gitCloneBare (remote dest : String)
  | gitFetchAllPrune (gitDir : String)
  | gitShowRefVerify (gitDir ref : String)
  | gitWorktreeAdd (gitDir path branch : String)
  | gitWorktreeAddNewBranch (gitDir branch path : String)
  | gitBranch (gitDir branch startPoint : String)
  | gitRevParseInsideWorkTree (cwd : String)
  | corepackEnable
  | pnpmInstall (cwd : String)
  deriving Repr, DecidableEq

/-- The distinct fatal-exit sites of the two scripts, one constructor per
diagnostic message.  `uncaught` is an exception from `run` that no caller
catches (Node then exits non-zero). -/
inductive ExitReason where
  | usage
  | configMissing
  | configMalformed
  | configParse
  | bareMissing
  | worktreeExists
  | invalidWorktree
  | notOurWorktree
  | installFailed
  | uncaught
  deriving Repr, DecidableEq

/-- Process outcome: exit code 0, or a non-zero exit at an identified site. -/
inductive Outcome where
  | success
  | exit1 (r : ExitReason)
  deriving Repr, DecidableEq

/-- Non-zero exit status. -/
def Outcome.isFailure : Outcome → Bool
  | .success => false
  | .exit1 _ => true

/-- `codebase` object as parsed from `project.config.json` (fields may be
absent). -/
structure RawCodebase where
  remote : Option String
  defaultBranch : Option String
  deriving Repr, DecidableEq

/-- `worktrees` object as parsed from `project.config.json`. -/
structure RawWorktrees where
  root : Option String
  branchSanitizer : Option String
  deriving Repr, DecidableEq

/-- The parsed configuration file, before validation and defaulting. -/
structure RawConfig where
  codebase : Option RawCodebase
  worktrees : Option RawWorktrees
  deriving Repr, DecidableEq

/-- `codebase` after `loadConfig` has applied defaults. -/
structure CodebaseConfig where
  remote : String
  defaultBranch : String
  deriving Repr, DecidableEq

/-- `worktrees` after `loadConfig` has applied defaults. -/
structure WorktreesConfig where
  root : String
  branchSanitizer : Option String
  deriving Repr, DecidableEq

/-- The validated `ProjectConfig` record both scripts work with. -/
structure ProjectConfig where
  codebase : CodebaseConfig
  worktrees : WorktreesConfig
  deriving Repr, DecidableEq

/-- JavaScript `x || d` on an optional string: `undefined` and `""` are
falsy, every other string is kept. -/
def jsOrDefault (o : Option String) (d : String) : String :=
  match o with
  | none => d
  | some s => if s = "" then d else s

/-- `path.join` for the two-argument joins the scripts perform: an empty
segment leaves the path unchanged (`path.join(p, "") = p`); otherwise the
segments are joined with a separator.  The scripts only join an absolute
root with relative slash-free segments, so no other normalisation applies. -/
def nodeJoin (a b : String) : String :=
  if b = "" then a else if a = "" then b else a ++ "/" ++ b

/-- Defaulting step shared by both loaders (the three assignment lines after
validation): `defaultBranch || "main"`, `worktrees || { root: "worktrees" }`,
`worktrees.root || "worktrees"`.  `remote` and `branchSanitizer` pass
through. -/
def applyDefaults (cfg : RawConfig) (cb : RawCodebase) (remote : String) :
    ProjectConfig :=
  { codebase :=
      { remote := remote
        defaultBranch := jsOrDefault cb.defaultBranch "main" }
    worktrees :=
      match cfg.worktrees with
      | none => { root := "worktrees", branchSanitizer := none }
      | some w =>
          { root := jsOrDefault w.root "worktrees"
            branchSanitizer := w.branchSanitizer } }

namespace CreateWorktree

/-- `loadConfig` of the worktree-creation script.  `fileExists` is
`existsSync(CONFIG_PATH)`; `raw = none` models a `readFileSync`/`JSON.parse`
failure.  The validation is `!config.codebase?.remote`: it rejects a missing
`codebase`, a missing `remote`, and the empty string (the only falsy
string), and nothing else. -/
def loadConfig (fileExists : Bool) (raw : Option RawConfig) :
    Except ExitReason ProjectConfig :=
  if ¬ fileExists then .error .configMissing
  else
    match raw with
    | none => .error .configParse
    | some cfg =>
        match cfg.codebase with
        | none => .error .configMalformed
        | some cb =>
            match cb.remote with
            | none => .error .configMalformed
            | some r =>
                if r = "" then .error .configMalformed
                else .ok (applyDefaults cfg cb r)

/-- The character class `[A-Za-z0-9._-]` of `sanitizeBranchName`. -/
def isSafeChar (c : Char) : Bool :=
  decide (('A' ≤ c ∧ c ≤ 'Z') ∨ ('a' ≤ c ∧ c ≤ 'z') ∨ ('0' ≤ c ∧ c ≤ '9') ∨
    c = '.' ∨ c = '_' ∨ c = '-')

/-- First replacement pass: `.replace(/\//g, "__")`.  The pattern is the
single character `/`, so the global replacement maps each character
independently: `/` becomes the two characters `__`, others are kept. -/
def slashPass (cs : List Char) : List Char :=
  cs.flatMap fun c => if c = '/' then ['_', '_'] else [c]

/-- Second replacement pass: `.replace(/[^A-Za-z0-9._-]/g, "_")`, a
per-character map. -/
def unsafePass (cs : List Char) : List Char :=
  cs.map fun c => if isSafeChar c then c else '_'

/-- `sanitizeBranchName`: slash pass, then unsafe-character pass. -/
def sanitizeBranchName (branch : String) : String :=
  ⟨unsafePass (slashPass branch.toList)⟩

/-- Environment of one invocation of the worktree-creation script: the
command-line arguments (after `process.argv.slice(2)`), the filesystem
queries it makes (`existsSync`), the parsed configuration file, the refs
reported by the two `branchExists` probes, and whether each external
command it may run would succeed.  `fetchOk` records the fate of
`git fetch`; `fetchLatest` catches that failure and only warns, so the
field influences nothing. -/
structure Env where
  metaRepoRoot : String
  argv : List String
  fsExists : String → Bool
  rawConfig : Option RawConfig
  fetchOk : Bool
  localRefExists : Bool
  remoteRefExists : Bool
  branchCmdOk : Bool
  worktreeAddOk : Bool
  installOk : Bool

/-- `CONFIG_PATH = join(META_REPO_ROOT, "project.config.json")`. -/
def Env.configPath (e : Env) : String :=
  nodeJoin e.metaRepoRoot "project.config.json"

/-- `BARE_PATH = join(META_REPO_ROOT, ".bare")`. -/
def Env.barePath (e : Env) : String :=
  nodeJoin e.metaRepoRoot ".bare"

/-- `createWorktree`: a single `git worktree add`, with `-b` exactly when a
new branch is to be created. -/
def createWorktree (gitDir branch worktreePath : String)
    (createNewBranch : Bool) : Cmd :=
  if createNewBranch then .gitWorktreeAddNewBranch gitDir branch worktreePath
  else .gitWorktreeAdd gitDir worktreePath branch

/-- `createTrackingBranch`: `git branch <branch> origin/<branch>`. -/
def createTrackingBranch (gitDir branch : String) : Cmd :=
  .gitBranch gitDir branch ("origin/" ++ branch)

/-- `installDependencies`: runs `pnpm install` in the worktree; failure is
fatal (`process.exit(1)`). -/
def installDependencies (worktreePath : String) (installOk : Bool) :
    List Cmd × Outcome :=
  ([.pnpmInstall worktreePath],
   if installOk then .success else .exit1 .installFailed)

/-- The worktree path `main` computes:
`join(join(META_REPO_ROOT, config.worktrees.root), sanitizeBranchName(args[0]))`. -/
def targetPath (e : Env) (config : ProjectConfig) : String :=
  nodeJoin (nodeJoin e.metaRepoRoot config.worktrees.root)
    (sanitizeBranchName (e.argv.headD ""))

/-- `main` of the worktree-creation script: the ordered list of external
commands it issues, paired with its outcome.  Control flow follows the
source exactly: usage check, `loadConfig`, guard on the bare repository,
guard on the target path, best-effort `fetchLatest`, the two `branchExists`
probes (both always run), branch resolution, `installDependencies`.  A
failing `git worktree add` or `git branch` raises an exception out of `run`
that nothing catches, terminating the process (`.exit1 .uncaught`). -/
def main (e : Env) : List Cmd × Outcome :=
  if e.argv = [] then ([], .exit1 .usage)
  else
    let branch := e.argv.headD ""
    match loadConfig (e.fsExists e.configPath) e.rawConfig with
    | .error r => ([], .exit1 r)
    | .ok config =>
        let worktreePath := targetPath e config
        if ¬ e.fsExists e.barePath then ([], .exit1 .bareMissing)
        else if e.fsExists worktreePath then ([], .exit1 .worktreeExists)
        else
          let probes : List Cmd :=
            [.gitFetchAllPrune e.barePath,
             .gitShowRefVerify e.barePath ("refs/heads/" ++ branch),
             .gitShowRefVerify e.barePath ("refs/remotes/origin/" ++ branch)]
          if e.localRefExists then
            let t := probes ++ [createWorktree e.barePath branch worktreePath false]
            if ¬ e.worktreeAddOk then (t, .exit1 .uncaught)
            else (t ++ (installDependencies worktreePath e.installOk).1,
                  (installDependencies worktreePath e.installOk).2)
          else if e.remoteRefExists then
            let t₁ := probes ++ [createTrackingBranch e.barePath branch]
            if ¬ e.branchCmdOk then (t₁, .exit1 .uncaught)
            else
              let t := t₁ ++ [createWorktree e.barePath branch worktreePath false]
              if ¬ e.worktreeAddOk then (t, .exit1 .uncaught)
              else (t ++ (installDependencies worktreePath e.installOk).1,
                    (installDependencies worktreePath e.installOk).2)
          else
            let t := probes ++ [createWorktree e.barePath branch worktreePath true]
            if ¬ e.worktreeAddOk then (t, .exit1 .uncaught)
            else (t ++ (installDependencies worktreePath e.installOk).1,
                  (installDependencies worktreePath e.installOk).2)

end CreateWorktree

/-- `startsWith` on character lists, an auxiliary for substring search. -/
def charsHasLead : List Char → List Char → Bool
  | [], _ => true
  | _ :: _, [] => false
  | p :: ps, c :: cs => p == c && charsHasLead ps cs

/-- Substring containment on character lists. -/
def charsContain (pat : List Char) : List Char → Bool
  | [] => charsHasLead pat []
  | c :: cs => charsHasLead pat (c :: cs) || charsContain pat cs

/-- JavaScript `String.prototype.includes`: substring containment. -/
def strIncludes (s pat : String) : Bool :=
  charsContain pat.toList s.toList

/-- JavaScript `String.prototype.trim`: strip leading and trailing
whitespace. -/
def jsTrim (s : String) : String :=
  ⟨((s.toList.dropWhile Char.isWhitespace).reverse.dropWhile
      Char.isWhitespace).reverse⟩

/-- JavaScript `String.prototype.startsWith`. -/
def jsStartsWith (s pat : String) : Bool :=
  charsHasLead pat.toList s.toList

/-- JavaScript `String.prototype.substring(n)`: drop the first `n`
characters. -/
def jsSubstringFrom (s : String) (n : Nat) : String :=
  ⟨s.toList.drop n⟩

namespace Bootstrap

/-- `loadConfig` of `bootstrap.ts`.  Its validation is stricter than the
worktree script's: `!config.codebase?.remote || typeof remote !== "string"
|| remote.trim() === ""` also rejects whitespace-only remotes.  (The
`typeof` test cannot fire in this model, where a present `remote` is always
a string.) -/
def loadConfig (fileExists : Bool) (raw : Option RawConfig) :
    Except ExitReason ProjectConfig :=
  if ¬ fileExists then .error .configMissing
  else
    match raw with
    | none => .error .configParse
    | some cfg =>
        match cfg.codebase with
        | none => .error .configMalformed
        | some cb =>
            match cb.remote with
            | none => .error .configMalformed
            | some r =>
                if jsTrim r = "" then .error .configMalformed
                else .ok (applyDefaults cfg cb r)

/-- Environment of one bootstrap invocation: the filesystem queries the
script makes, the parsed configuration file, the content the linkage-file
read would return (`none` models `readFileSync` throwing), and whether each
external command would succeed. `corepackOk` records the fate of
`corepack enable`; `enableCorepack` catches that failure and only warns, so
the field influences nothing. -/
structure Env where
  metaRepoRoot : String
  fsExists : String → Bool
  rawConfig : Option RawConfig
  cloneOk : Bool
  revParseOk : Bool
  gitFileRead : Option String
  worktreeAddOk : Bool
  corepackOk : Bool
  installOk : Bool

/-- `CONFIG_PATH = join(META_REPO_ROOT, "project.config.json")`. -/
def Env.configPath (e : Env) : String :=
  nodeJoin e.metaRepoRoot "project.config.json"

/-- `BARE_PATH = join(META_REPO_ROOT, ".bare")`. -/
def Env.barePath (e : Env) : String :=
  nodeJoin e.metaRepoRoot ".bare"

/-- `cloneBareRepo`: `git clone --bare <remote> <BARE_PATH>`. -/
def cloneBareRepo (remote dest : String) : Cmd :=
  .gitCloneBare remote dest

/-- The main worktree path:
`join(join(META_REPO_ROOT, config.worktrees.root), "main")`. -/
def mainWorktreePath (e : Env) (config : ProjectConfig) : String :=
  nodeJoin (nodeJoin e.metaRepoRoot config.worktrees.root) "main"

/-- `verifyWorktreePointsToOurBare`: the `.git` linkage file of the
worktree must exist, be readable, start (after trimming) with `gitdir:`,
and the path after that marker must contain `.bare`. -/
def verifyWorktreePointsToOurBare (e : Env) (worktreePath : String) : Bool :=
  let gitFile := nodeJoin worktreePath ".git"
  if ¬ e.fsExists gitFile then false
  else
    match e.gitFileRead with
    | none => false
    | some raw =>
        let content := jsTrim raw
        if ¬ jsStartsWith content "gitdir:" then false
        else
          let gitdir := jsTrim (jsSubstringFrom content "gitdir:".length)
          strIncludes gitdir ".bare"

/-- `createWorktree` of bootstrap: when the main worktree path exists, run
`git rev-parse --is-inside-work-tree` there (a failure is caught and is
fatal), then check the linkage file (a mismatch is fatal), else keep it;
when absent, `git worktree add` it from the default branch (a command
failure is an uncaught exception).  Returns the commands run and the fatal
exit, if any. -/
def createWorktree (e : Env) (config : ProjectConfig) :
    List Cmd × Option ExitReason :=
  let path := mainWorktreePath e config
  if e.fsExists path then
    let t : List Cmd := [.gitRevParseInsideWorkTree path]
    if ¬ e.revParseOk then (t, some .invalidWorktree)
    else if ¬ verifyWorktreePointsToOurBare e path then (t, some .notOurWorktree)
    else (t, none)
  else
    let t : List Cmd :=
      [.gitWorktreeAdd e.barePath path config.codebase.defaultBranch]
    if ¬ e.worktreeAddOk then (t, some .uncaught) else (t, none)

/-- `enableCorepack` runs `corepack enable`; its failure is caught and only
warned about. -/
def enableCorepack : Cmd := .corepackEnable

/-- `installDependencies` of bootstrap: `pnpm install` in the main
worktree; failure is fatal. -/
def installDependencies (path : String) (installOk : Bool) :
    List Cmd × Outcome :=
  ([.pnpmInstall path],
   if installOk then .success else .exit1 .installFailed)

/-- The tail of `main` after the clone step: create/validate the main
worktree, enable corepack (best effort), install dependencies. -/
def afterClone (e : Env) (config : ProjectConfig) (t₀ : List Cmd) :
    List Cmd × Outcome :=
  match (createWorktree e config).2 with
  | some r => (t₀ ++ (createWorktree e config).1, .exit1 r)
  | none =>
      (t₀ ++ (createWorktree e config).1 ++ [enableCorepack] ++
        (installDependencies (mainWorktreePath e config) e.installOk).1,
       (installDependencies (mainWorktreePath e config) e.installOk).2)

/-- `main` of `bootstrap.ts`: `loadConfig`, clone the bare repository if
absent (a clone failure is an uncaught exception), then create/validate the
main worktree, enable corepack, and install dependencies. -/
def main (e : Env) : List Cmd × Outcome :=
  match loadConfig (e.fsExists e.configPath) e.rawConfig with
  | .error r => ([], .exit1 r)
  | .ok config =>
      if ¬ e.fsExists e.barePath then
        let t₀ : List Cmd := [cloneBareRepo config.codebase.remote e.barePath]
        if ¬ e.cloneOk then (t₀, .exit1 .uncaught)
        else afterClone e config t₀
      else afterClone e config []

end Bootstrap

/-! ## Spec-side definitions

These render sentences of the specification, to be compared against the
embedded code above. -/

/-- The spec's wording of the first sanitizer pass: "replace every `/` with
the two-character sequence `__`", as a structural recursion. -/
def replaceSlashesSpec : List Char → List Char
  | [] => []
  | c :: cs => (if c = '/' then ['_', '_'] else [c]) ++ replaceSlashesSpec cs

/-- The spec's wording of the second sanitizer pass: "replace every
character outside the set `[A-Za-z0-9._-]` with `_`". -/
def replaceUnsafeSpec : List Char → List Char
  | [] => []
  | c :: cs =>
      (if CreateWorktree.isSafeChar c then c else '_') :: replaceUnsafeSpec cs

/-- The three branch-resolution actions of the spec. -/
inductive BranchAction where
  | attachExisting
  | trackThenAttach
  | createNew
  deriving Repr, DecidableEq

/-- The spec's branch-resolution policy, first match wins, in this order:
local branch exists → attach to it; else remote-tracking branch exists →
create a local tracking branch, then attach; else → brand-new branch. -/
def branchResolutionPolicy (localE remoteE : Bool) : BranchAction :=
  if localE then .attachExisting
  else if remoteE then .trackThenAttach
  else .createNew

/-- The commands each branch-resolution action issues, per the spec's
wording: attaching uses `worktree add` without the new-branch flag;
tracking first creates `branch <b> origin/<b>`, then attaches; a brand-new
branch uses the new-branch (`-b`) flag. -/
def actionCmds (gitDir branch worktreePath : String) :
    BranchAction → List Cmd
  | .attachExisting => [.gitWorktreeAdd gitDir worktreePath branch]
  | .trackThenAttach =>
      [.gitBranch gitDir branch ("origin/" ++ branch),
       .gitWorktreeAdd gitDir worktreePath branch]
  | .createNew => [.gitWorktreeAddNewBranch gitDir branch worktreePath]

/-- `codebase.remote` missing, empty, or whitespace-only (the bad inputs of
C3). -/
def remoteMissingOrBlank (raw : RawConfig) : Prop :=
  match raw.codebase with
  | none => True
  | some cb =>
      match cb.remote with
      | none => True
      | some r => jsTrim r = ""

/-- `codebase.remote` missing or the empty string (the JS-falsy inputs that
the worktree script's loader rejects). -/
def remoteMissingOrEmpty (raw : RawConfig) : Prop :=
  match raw.codebase with
  | none => True
  | some cb =>
      match cb.remote with
      | none => True
      | some r => r = ""

/-- The four linkage failure modes of C5 for the worktree at `path`: its
`.git` file is absent; it is unreadable; its (trimmed) content does not
begin with `gitdir:`; or the gitdir path after that marker does not contain
`.bare`. -/
def linkageBad (e : Bootstrap.Env) (path : String) : Prop :=
  e.fsExists (nodeJoin path ".git") = false ∨
  e.gitFileRead = none ∨
  (∃ raw, e.gitFileRead = some raw ∧
    jsStartsWith (jsTrim raw) "gitdir:" = false) ∨
  (∃ raw, e.gitFileRead = some raw ∧
    strIncludes (jsTrim (jsSubstringFrom (jsTrim raw) "gitdir:".length))
      ".bare" = false)

/-- Spec-side description of the loader's defaulting (C7): `remote` is
returned unchanged; `defaultBranch` absent or empty becomes `"main"`, else
unchanged; `worktrees`/`worktrees.root` absent or empty becomes
`"worktrees"`, else unchanged; `branchSanitizer` is returned unchanged
(absent when the whole `worktrees` object was absent). -/
def cfgDefaultsSpec (raw : RawConfig) (cfg : ProjectConfig) : Prop :=
  (match raw.codebase with
   | none => True
   | some cb =>
      cb.remote = some cfg.codebase.remote ∧
      cfg.codebase.defaultBranch =
        (match cb.defaultBranch with
         | none => "main"
         | some s => if s = "" then "main" else s)) ∧
  cfg.worktrees.root =
    (match raw.worktrees with
     | none => "worktrees"
     | some w =>
        match w.root with
        | none => "worktrees"
        | some s => if s = "" then "worktrees" else s) ∧
  cfg.worktrees.branchSanitizer =
    (match raw.worktrees with
     | none => none
     | some w => w.branchSanitizer)

/-! ## Concrete sample inputs

Closed values used by witnesses and counterexamples. -/

/-- A well-formed parsed configuration file. -/
def rawSample : RawConfig :=
  { codebase := some { remote := some "git@h:o/r.git", defaultBranch := some "main" }
    worktrees := some { root := some "worktrees", branchSanitizer := none } }

/-- The configuration `rawSample` loads to. -/
def cfgSample : ProjectConfig :=
  { codebase := { remote := "git@h:o/r.git", defaultBranch := "main" }
    worktrees := { root := "worktrees", branchSanitizer := none } }

/-- A parsed configuration whose `codebase.remote` is whitespace-only. -/
def rawBlankRemote : RawConfig :=
  { codebase := some { remote := some "   ", defaultBranch := none }
    worktrees := none }

/-- A parsed configuration with no `codebase` object at all. -/
def rawNoCodebase : RawConfig :=
  { codebase := none, worktrees := none }

/-- A parsed configuration exercising every default: `defaultBranch` and
`worktrees` absent. -/
def rawDefaults : RawConfig :=
  { codebase := some { remote := some "git@h:o/r.git", defaultBranch := none }
    worktrees := none }

/-- The configuration `rawDefaults` loads to. -/
def cfgDefaults : ProjectConfig :=
  { codebase := { remote := "git@h:o/r.git", defaultBranch := "main" }
    worktrees := { root := "worktrees", branchSanitizer := none } }

/-- Filesystem with the configuration file and the bare repository present
under root `/r`, and nothing else. -/
def fsBase : String → Bool :=
  fun s => s == "/r/project.config.json" || s == "/r/.bare"

/-- Worktree-creation environment: branch `feature/x`, remote branch
present, everything healthy. -/
def wtEnvSample : CreateWorktree.Env :=
  { metaRepoRoot := "/r", argv := ["feature/x"], fsExists := fsBase
    rawConfig := some rawSample, fetchOk := true
    localRefExists := false, remoteRefExists := true
    branchCmdOk := true, worktreeAddOk := true, installOk := true }

/-- Worktree-creation environment whose bare repository is missing. -/
def wtEnvNoBare : CreateWorktree.Env :=
  { metaRepoRoot := "/r", argv := ["feature/x"]
    fsExists := fun s => s == "/r/project.config.json"
    rawConfig := some rawSample, fetchOk := true
    localRefExists := false, remoteRefExists := false
    branchCmdOk := true, worktreeAddOk := true, installOk := true }

/-- Worktree-creation environment invoked with the empty-string branch
argument, with the worktrees root directory already present. -/
def wtEnvEmptyArg : CreateWorktree.Env :=
  { metaRepoRoot := "/r", argv := [""]
    fsExists := fun s =>
      s == "/r/project.config.json" || s == "/r/.bare" || s == "/r/worktrees"
    rawConfig := some rawSample, fetchOk := true
    localRefExists := false, remoteRefExists := false
    branchCmdOk := true, worktreeAddOk := true, installOk := true }

/-- Worktree-creation environment whose configuration has a whitespace-only
remote; everything else healthy. -/
def wtEnvBlankRemote : CreateWorktree.Env :=
  { metaRepoRoot := "/r", argv := ["b"], fsExists := fsBase
    rawConfig := some rawBlankRemote, fetchOk := true
    localRefExists := true, remoteRefExists := false
    branchCmdOk := true, worktreeAddOk := true, installOk := true }

/-- Worktree-creation environment whose configuration lacks `codebase`. -/
def wtEnvNoCodebase : CreateWorktree.Env :=
  { metaRepoRoot := "/r", argv := ["b"], fsExists := fsBase
    rawConfig := some rawNoCodebase, fetchOk := true
    localRefExists := true, remoteRefExists := false
    branchCmdOk := true, worktreeAddOk := true, installOk := true }

/-- Worktree-creation environment for the defaulting witness. -/
def wtEnvDefaults : CreateWorktree.Env :=
  { metaRepoRoot := "/r", argv := ["b"], fsExists := fsBase
    rawConfig := some rawDefaults, fetchOk := true
    localRefExists := true, remoteRefExists := false
    branchCmdOk := true, worktreeAddOk := true, installOk := true }

/-- Filesystem for a bootstrap whose main worktree already exists. -/
def fsWithMainWorktree : String → Bool :=
  fun s =>
    s == "/r/project.config.json" || s == "/r/.bare" ||
    s == "/r/worktrees/main" || s == "/r/worktrees/main/.git"

/-- Bootstrap environment whose existing main worktree's linkage file
points somewhere that does not contain `.bare`. -/
def bsEnvBadLinkage : Bootstrap.Env :=
  { metaRepoRoot := "/r", fsExists := fsWithMainWorktree
    rawConfig := some rawSample, cloneOk := true, revParseOk := true
    gitFileRead := some "gitdir: /elsewhere/worktrees/main"
    worktreeAddOk := true, corepackOk := true, installOk := true }

/-- Bootstrap environment whose `corepack enable` fails; everything else
healthy (valid existing main worktree). -/
def bsEnvCorepackFail : Bootstrap.Env :=
  { metaRepoRoot := "/r", fsExists := fsWithMainWorktree
    rawConfig := some rawSample, cloneOk := true, revParseOk := true
    gitFileRead := some "gitdir: /r/.bare/worktrees/main"
    worktreeAddOk := true, corepackOk := false, installOk := true }

/-- Bootstrap environment whose configuration lacks `codebase`. -/
def bsEnvNoCodebase : Bootstrap.Env :=
  { metaRepoRoot := "/r", fsExists := fsBase
    rawConfig := some rawNoCodebase, cloneOk := true, revParseOk := true
    gitFileRead := none
    worktreeAddOk := true, corepackOk := true, installOk := true }

/-! ## Helper lemmas -/

theorem slashPass_eq_replaceSlashesSpec (cs : List Char) :
    CreateWorktree.slashPass cs = replaceSlashesSpec cs := by
  induction cs with
  | nil => rfl
  | cons c cs ih =>
      simp only [CreateWorktree.slashPass, List.flatMap_cons, replaceSlashesSpec] at ih ⊢
      rw [ih]

theorem unsafePass_eq_replaceUnsafeSpec (cs : List Char) :
    CreateWorktree.unsafePass cs = replaceUnsafeSpec cs := by
  induction cs with
  | nil => rfl
  | cons c cs ih =>
      simp only [CreateWorktree.unsafePass, List.map_cons, replaceUnsafeSpec] at ih ⊢
      rw [ih]

theorem isSafeChar_of_mem_unsafePass {c : Char} {l : List Char}
    (h : c ∈ CreateWorktree.unsafePass l) :
    CreateWorktree.isSafeChar c = true := by
  simp only [CreateWorktree.unsafePass, List.mem_map] at h
  obtain ⟨a, -, rfl⟩ := h
  by_cases ha : CreateWorktree.isSafeChar a
  · simp [ha]
  · simp only [ha, if_neg, Bool.false_eq_true, if_false]
    decide

theorem ne_slash_of_safeChar {c : Char}
    (h : CreateWorktree.isSafeChar c = true) : c ≠ '/' := by
  rintro rfl
  revert h
  decide

theorem slashPass_of_safe {l : List Char}
    (h : ∀ c ∈ l, CreateWorktree.isSafeChar c = true) :
    CreateWorktree.slashPass l = l := by
  induction l with
  | nil => rfl
  | cons c cs ih =>
      have hc : c ≠ '/' := ne_slash_of_safeChar (h c (List.mem_cons_self c cs))
      have ihs := ih fun d hd => h d (List.mem_cons_of_mem c hd)
      simp only [CreateWorktree.slashPass, List.flatMap_cons, hc, if_false,
        List.singleton_append] at ihs ⊢
      rw [ihs]

theorem unsafePass_of_safe {l : List Char}
    (h : ∀ c ∈ l, CreateWorktree.isSafeChar c = true) :
    CreateWorktree.unsafePass l = l := by
  induction l with
  | nil => rfl
  | cons c cs ih =>
      have hc := h c (List.mem_cons_self c cs)
      have ihs := ih fun d hd => h d (List.mem_cons_of_mem c hd)
      simp only [CreateWorktree.unsafePass, List.map_cons, hc, if_true] at ihs ⊢
      rw [ihs]

theorem filter_safe_sublist_sanitized (l : List Char) :
    (l.filter CreateWorktree.isSafeChar).Sublist
      (CreateWorktree.unsafePass (CreateWorktree.slashPass l)) := by
  induction l with
  | nil => simp [CreateWorktree.slashPass, CreateWorktree.unsafePass]
  | cons c cs ih =>
      by_cases hc : CreateWorktree.isSafeChar c
      · have hs : c ≠ '/' := ne_slash_of_safeChar hc
        simp only [CreateWorktree.slashPass, CreateWorktree.unsafePass,
          List.flatMap_cons, hs, if_false, List.singleton_append, List.map_cons,
          hc, if_true, List.filter_cons_of_pos]
        exact ih.cons₂ c
      · by_cases hs : c = '/'
        · subst hs
          simp only [CreateWorktree.slashPass, CreateWorktree.unsafePass,
            List.flatMap_cons, if_true, List.map_cons, List.cons_append,
            List.nil_append, List.filter_cons_of_neg (by simpa using hc)]
          exact (ih.cons _).cons _
        · simp only [CreateWorktree.slashPass, CreateWorktree.unsafePass,
            List.flatMap_cons, hs, if_false, List.singleton_append,
            List.map_cons, hc, List.filter_cons_of_neg (by simpa using hc)]
          exact ih.cons _

/-! ## Claims about the branch-name sanitizer -/

/-- C2: `sanitizeBranchName` equals the spec's algorithm — first replace
every `/` with the two-character sequence `__`, then replace every
character outside `[A-Za-z0-9._-]` with `_` — with the passes composed in
exactly that order: on input `"/"` it yields `"__"`, whereas the reversed
composition would yield `"_"`. -/
theorem sanitizeBranchName_eq_spec_passes (s : String) :
    CreateWorktree.sanitizeBranchName s =
      ⟨replaceUnsafeSpec (replaceSlashesSpec s.toList)⟩ ∧
    CreateWorktree.sanitizeBranchName "/" = "__" ∧
    (⟨replaceSlashesSpec (replaceUnsafeSpec "/".toList)⟩ : String) = "_" := by
  refine ⟨?_, by rfl, by rfl⟩
  show (⟨CreateWorktree.unsafePass (CreateWorktree.slashPass s.toList)⟩ : String) = _
  rw [slashPass_eq_replaceSlashesSpec, unsafePass_eq_replaceUnsafeSpec]

/-- C8: every character of `sanitizeBranchName`'s output lies in
`[A-Za-z0-9._-]`; in particular the output never contains `/`; and the
input characters already in that set are preserved unchanged, in their
original order (they form a sublist of the output). -/
theorem sanitizeBranchName_output_safe (s : String) :
    (∀ c ∈ (CreateWorktree.sanitizeBranchName s).toList,
      CreateWorktree.isSafeChar c = true) ∧
    '/' ∉ (CreateWorktree.sanitizeBranchName s).toList ∧
    (s.toList.filter CreateWorktree.isSafeChar).Sublist
      (CreateWorktree.sanitizeBranchName s).toList := by
  refine ⟨fun c hc => isSafeChar_of_mem_unsafePass hc, fun h => ?_,
    filter_safe_sublist_sanitized s.toList⟩
  have := isSafeChar_of_mem_unsafePass h
  revert this
  decide

/-- Witness for C8 at the branch name `feature/x?`. -/
theorem sanitizeBranchName_output_safe_witness :
    '/' ∉ (CreateWorktree.sanitizeBranchName "feature/x?").toList ∧
    ("feature/x?".toList.filter CreateWorktree.isSafeChar).Sublist
      (CreateWorktree.sanitizeBranchName "feature/x?").toList :=
  ⟨(sanitizeBranchName_output_safe "feature/x?").2.1,
   (sanitizeBranchName_output_safe "feature/x?").2.2⟩

/-- C9: `sanitizeBranchName` is idempotent — its output contains no `/`
and no character outside `[A-Za-z0-9._-]`, so a second application is the
identity on it. -/
theorem sanitizeBranchName_idempotent (s : String) :
    CreateWorktree.sanitizeBranchName (CreateWorktree.sanitizeBranchName s) =
      CreateWorktree.sanitizeBranchName s := by
  have hsafe : ∀ c ∈ (CreateWorktree.sanitizeBranchName s).toList,
      CreateWorktree.isSafeChar c = true :=
    fun c hc => isSafeChar_of_mem_unsafePass hc
  show (⟨CreateWorktree.unsafePass
    (CreateWorktree.slashPass (CreateWorktree.sanitizeBranchName s).toList)⟩ : String) = _
  rw [slashPass_of_safe hsafe, unsafePass_of_safe hsafe]
  rfl

/-! ## Claims about the worktree-creation procedure -/

theorem sanitizeBranchName_empty : CreateWorktree.sanitizeBranchName "" = "" := rfl

theorem wtLoadConfig_error_reasons {f : Bool} {raw : Option RawConfig}
    {r : ExitReason}
    (h : CreateWorktree.loadConfig f raw = .error r) :
    r = .configMissing ∨ r = .configParse ∨ r = .configMalformed := by
  unfold CreateWorktree.loadConfig at h
  split at h
  · simp only [Except.error.injEq] at h; exact Or.inl h.symm
  · split at h
    · simp only [Except.error.injEq] at h; exact Or.inr (Or.inl h.symm)
    · split at h
      · simp only [Except.error.injEq] at h; exact Or.inr (Or.inr h.symm)
      · split at h
        · simp only [Except.error.injEq] at h; exact Or.inr (Or.inr h.symm)
        · split at h
          · simp only [Except.error.injEq] at h; exact Or.inr (Or.inr h.symm)
          · cases h

/-- C1: for every branch name, exactly one of the three branch-resolution
actions is taken, first match wins, local before remote: a local ref
yields a plain `worktree add` on the existing branch; else a remote ref
yields `git branch <b> origin/<b>` followed by a plain `worktree add`;
else `worktree add -b` creates a brand-new branch.  The command trace is
the fetch, the two ref probes, the commands of exactly that one action,
and the install. -/
theorem createWorktree_branch_resolution
    (e : CreateWorktree.Env) (b : String) (rest : List String)
    (cfg : ProjectConfig)
    (hargv : e.argv = b :: rest)
    (hload : CreateWorktree.loadConfig (e.fsExists e.configPath) e.rawConfig =
      .ok cfg)
    (hbare : e.fsExists e.barePath = true)
    (hpath : e.fsExists (CreateWorktree.targetPath e cfg) = false)
    (hwa : e.worktreeAddOk = true) (hbc : e.branchCmdOk = true) :
    (CreateWorktree.main e).1 =
      [.gitFetchAllPrune e.barePath,
       .gitShowRefVerify e.barePath ("refs/heads/" ++ b),
       .gitShowRefVerify e.barePath ("refs/remotes/origin/" ++ b)] ++
      actionCmds e.barePath b (CreateWorktree.targetPath e cfg)
        (branchResolutionPolicy e.localRefExists e.remoteRefExists) ++
      [.pnpmInstall (CreateWorktree.targetPath e cfg)] := by
  simp only [CreateWorktree.targetPath, hargv, List.headD_cons] at hpath ⊢
  cases hl : e.localRefExists <;> cases hr : e.remoteRefExists <;>
    simp [CreateWorktree.main, hargv, hload, hbare, hpath, hwa, hbc, hl, hr,
      CreateWorktree.createWorktree, CreateWorktree.createTrackingBranch,
      CreateWorktree.installDependencies, branchResolutionPolicy, actionCmds,
      CreateWorktree.targetPath]

/-- Witness for C1: branch `feature/x`, no local ref, remote ref present —
the trace creates the tracking branch and then the worktree, without the
new-branch flag. -/
theorem createWorktree_branch_resolution_witness :
    (CreateWorktree.main wtEnvSample).1 =
      [.gitFetchAllPrune "/r/.bare",
       .gitShowRefVerify "/r/.bare" "refs/heads/feature/x",
       .gitShowRefVerify "/r/.bare" "refs/remotes/origin/feature/x",
       .gitBranch "/r/.bare" "feature/x" "origin/feature/x",
       .gitWorktreeAdd "/r/.bare" "/r/worktrees/feature__x" "feature/x",
       .pnpmInstall "/r/worktrees/feature__x"] :=
  (createWorktree_branch_resolution wtEnvSample "feature/x" [] cfgSample
    rfl rfl rfl rfl rfl rfl).trans rfl

/-- C4: the guard checks of worktree creation precede the fetch: with the
bare repository absent the process exits non-zero having run no external
command at all (so neither fetch nor worktree-add); with the target
worktree path already present it likewise exits non-zero having run no
external command (so no fetch). -/
theorem createWorktree_guards_precede_fetch (e : CreateWorktree.Env) :
    (e.fsExists e.barePath = false →
      (CreateWorktree.main e).1 = [] ∧
      (CreateWorktree.main e).2.isFailure = true) ∧
    (∀ cfg : ProjectConfig,
      CreateWorktree.loadConfig (e.fsExists e.configPath) e.rawConfig =
        .ok cfg →
      e.fsExists (CreateWorktree.targetPath e cfg) = true →
      (CreateWorktree.main e).1 = [] ∧
      (CreateWorktree.main e).2.isFailure = true) := by
  constructor
  · intro hbare
    rcases ha : e.argv with _ | ⟨b, rest⟩
    · simp [CreateWorktree.main, ha, Outcome.isFailure]
    · cases hload : CreateWorktree.loadConfig (e.fsExists e.configPath)
        e.rawConfig with
      | error r => simp [CreateWorktree.main, ha, hload, Outcome.isFailure]
      | ok cfg =>
          simp [CreateWorktree.main, ha, hload, hbare, Outcome.isFailure]
  · intro cfg hload hpath
    rcases ha : e.argv with _ | ⟨b, rest⟩
    · simp [CreateWorktree.main, ha, Outcome.isFailure]
    · simp only [CreateWorktree.targetPath, ha, List.headD_cons] at hpath
      by_cases hbare : e.fsExists e.barePath
      · simp [CreateWorktree.main, ha, hload, hbare, hpath,
          CreateWorktree.targetPath, Outcome.isFailure]
      · simp [CreateWorktree.main, ha, hload, hbare, Outcome.isFailure]

/-- Witness for C4: with the bare repository missing, the invocation exits
non-zero without issuing a single command. -/
theorem createWorktree_guards_precede_fetch_witness :
    (CreateWorktree.main wtEnvNoBare).1 = [] ∧
    (CreateWorktree.main wtEnvNoBare).2.isFailure = true :=
  (createWorktree_guards_precede_fetch wtEnvNoBare).1 rfl

/-- C10: the usage error occurs exactly when the argument list is empty;
an empty-string branch argument is accepted, sanitizes to the empty
string, and the computed target worktree path is then the worktrees root
itself, so (bare repository present, root directory present) the
path-existence check is what rejects that invocation. -/
theorem createWorktree_usage_iff_no_args :
    (∀ e : CreateWorktree.Env,
      (CreateWorktree.main e).2 = .exit1 .usage ↔ e.argv = []) ∧
    CreateWorktree.sanitizeBranchName "" = "" ∧
    (∀ (e : CreateWorktree.Env) (rest : List String) (cfg : ProjectConfig),
      e.argv = "" :: rest →
      CreateWorktree.loadConfig (e.fsExists e.configPath) e.rawConfig =
        .ok cfg →
      CreateWorktree.targetPath e cfg =
        nodeJoin e.metaRepoRoot cfg.worktrees.root ∧
      (e.fsExists e.barePath = true →
        e.fsExists (nodeJoin e.metaRepoRoot cfg.worktrees.root) = true →
        CreateWorktree.main e = ([], .exit1 .worktreeExists))) := by
  refine ⟨fun e => ⟨fun h => ?_, fun h => by simp [CreateWorktree.main, h]⟩,
    rfl, fun e rest cfg ha hload => ⟨?_, fun hbare hroot => ?_⟩⟩
  · rcases ha : e.argv with _ | ⟨b, rest⟩
    · rfl
    · exfalso
      cases hload : CreateWorktree.loadConfig (e.fsExists e.configPath)
        e.rawConfig with
      | error r =>
          simp [CreateWorktree.main, ha, hload] at h
          rcases wtLoadConfig_error_reasons hload with rfl | rfl | rfl <;>
            cases h
      | ok cfg =>
          simp [CreateWorktree.main, ha, hload,
            CreateWorktree.installDependencies] at h
          split_ifs at h <;> simp_all
  · simp [CreateWorktree.targetPath, ha, sanitizeBranchName_empty, nodeJoin]
  · have hpath : CreateWorktree.targetPath e cfg =
        nodeJoin e.metaRepoRoot cfg.worktrees.root := by
      simp [CreateWorktree.targetPath, ha, sanitizeBranchName_empty, nodeJoin]
    simp [CreateWorktree.main, ha, hload, hbare, hpath, hroot]

/-- Witness for C10: invoking with the single argument `""` (config loads,
bare repository present, worktrees root present) is rejected by the
path-existence check, not the usage check. -/
theorem createWorktree_usage_iff_no_args_witness :
    CreateWorktree.main wtEnvEmptyArg = ([], .exit1 .worktreeExists) :=
  (createWorktree_usage_iff_no_args.2.2 wtEnvEmptyArg [] cfgSample
    rfl rfl).2 rfl rfl

/-! ## Claims about the config loaders -/

theorem bootstrapLoadConfig_not_ok_of_bad_remote {f : Bool} {raw : RawConfig}
    (h : remoteMissingOrBlank raw) (pc : ProjectConfig) :
    Bootstrap.loadConfig f (some raw) ≠ .ok pc := by
  intro hok
  obtain ⟨cbo, wo⟩ := raw
  by_cases hf : f
  · cases cbo with
    | none => simp [Bootstrap.loadConfig, hf] at hok
    | some cb =>
        obtain ⟨ro, dbo⟩ := cb
        cases ro with
        | none => simp [Bootstrap.loadConfig, hf] at hok
        | some r =>
            simp only [remoteMissingOrBlank] at h
            simp [Bootstrap.loadConfig, hf, h] at hok
  · simp [Bootstrap.loadConfig, hf] at hok

theorem wtLoadConfig_not_ok_of_bad_remote {f : Bool} {raw : RawConfig}
    (h : remoteMissingOrEmpty raw) (pc : ProjectConfig) :
    CreateWorktree.loadConfig f (some raw) ≠ .ok pc := by
  intro hok
  obtain ⟨cbo, wo⟩ := raw
  by_cases hf : f
  · cases cbo with
    | none => simp [CreateWorktree.loadConfig, hf] at hok
    | some cb =>
        obtain ⟨ro, dbo⟩ := cb
        cases ro with
        | none => simp [CreateWorktree.loadConfig, hf] at hok
        | some r =>
            simp only [remoteMissingOrEmpty] at h
            simp [CreateWorktree.loadConfig, hf, h] at hok
  · simp [CreateWorktree.loadConfig, hf] at hok

/-- C3 counterexample: the claim fails for the worktree-creation script.
Its loader's check is JavaScript truthiness, under which a whitespace-only
`codebase.remote` is truthy: the loader returns the configuration instead
of terminating, and that invocation goes on to execute external commands
(the first being the fetch) and to succeed. -/
theorem blankRemote_accepted_by_worktree_loader :
    CreateWorktree.loadConfig true (some rawBlankRemote) =
      .ok { codebase := { remote := "   ", defaultBranch := "main" }
            worktrees := { root := "worktrees", branchSanitizer := none } } ∧
    (CreateWorktree.main wtEnvBlankRemote).1.head? =
      some (.gitFetchAllPrune "/r/.bare") ∧
    (CreateWorktree.main wtEnvBlankRemote).2 = .success :=
  ⟨rfl, rfl, rfl⟩

/-- C3 (amended): bootstrap's loader exits non-zero before any external
command when `codebase.remote` is missing, empty, or whitespace-only; the
worktree-creation script's loader does so when `codebase.remote` is
missing or empty, but accepts a whitespace-only remote. -/
theorem loadConfig_remote_validation
    (eb : Bootstrap.Env) (ew : CreateWorktree.Env) (rawB rawW : RawConfig)
    (hb : eb.rawConfig = some rawB) (h1 : remoteMissingOrBlank rawB)
    (hw : ew.rawConfig = some rawW) (h2 : remoteMissingOrEmpty rawW) :
    ((Bootstrap.main eb).1 = [] ∧ (Bootstrap.main eb).2.isFailure = true) ∧
    ((CreateWorktree.main ew).1 = [] ∧
      (CreateWorktree.main ew).2.isFailure = true) := by
  constructor
  · cases hload : Bootstrap.loadConfig (eb.fsExists eb.configPath)
      eb.rawConfig with
    | error r => simp [Bootstrap.main, hload, Outcome.isFailure]
    | ok cfg =>
        rw [hb] at hload
        exact absurd hload (bootstrapLoadConfig_not_ok_of_bad_remote h1 cfg)
  · rcases ha : ew.argv with _ | ⟨b, rest⟩
    · simp [CreateWorktree.main, ha, Outcome.isFailure]
    · cases hload : CreateWorktree.loadConfig (ew.fsExists ew.configPath)
        ew.rawConfig with
      | error r => simp [CreateWorktree.main, ha, hload, Outcome.isFailure]
      | ok cfg =>
          rw [hw] at hload
          exact absurd hload (wtLoadConfig_not_ok_of_bad_remote h2 cfg)

/-- Witness for the amended C3: a configuration with no `codebase` object
makes both scripts exit without running a command. -/
theorem loadConfig_remote_validation_witness :
    (Bootstrap.main bsEnvNoCodebase).1 = [] ∧
    (CreateWorktree.main wtEnvNoCodebase).1 = [] := by
  have h := loadConfig_remote_validation bsEnvNoCodebase wtEnvNoCodebase
    rawNoCodebase rawNoCodebase rfl trivial rfl trivial
  exact ⟨h.1.1, h.2.1⟩

/-! ## Claims about bootstrap -/

theorem verify_false_of_linkageBad {e : Bootstrap.Env} {path : String}
    (h : linkageBad e path) :
    Bootstrap.verifyWorktreePointsToOurBare e path = false := by
  unfold Bootstrap.verifyWorktreePointsToOurBare
  rcases h with h | h | ⟨raw, hr, h⟩ | ⟨raw, hr, h⟩
  · simp [h]
  · by_cases hf : e.fsExists (nodeJoin path ".git") <;> simp [hf, h]
  · by_cases hf : e.fsExists (nodeJoin path ".git") <;> simp [hf, hr, h]
  · by_cases hf : e.fsExists (nodeJoin path ".git")
    · by_cases hs : jsStartsWith (jsTrim raw) "gitdir:" <;> simp [hf, hr, hs, h]
    · simp [hf]

/-- C5: when the main worktree directory exists and is a git working tree
(`rev-parse` succeeds) but its `.git` linkage file is absent, unreadable,
does not begin with `gitdir:`, or its gitdir path does not contain
`.bare`, bootstrap exits non-zero and never runs the dependency
installation. -/
theorem bootstrap_bad_linkage_no_install
    (e : Bootstrap.Env) (cfg : ProjectConfig)
    (hload : Bootstrap.loadConfig (e.fsExists e.configPath) e.rawConfig =
      .ok cfg)
    (hexist : e.fsExists (Bootstrap.mainWorktreePath e cfg) = true)
    (hrev : e.revParseOk = true)
    (hbad : linkageBad e (Bootstrap.mainWorktreePath e cfg)) :
    (Bootstrap.main e).2.isFailure = true ∧
    ∀ c ∈ (Bootstrap.main e).1, ∀ p, c ≠ .pnpmInstall p := by
  have hv := verify_false_of_linkageBad hbad
  have hcw : Bootstrap.createWorktree e cfg =
      ([.gitRevParseInsideWorkTree (Bootstrap.mainWorktreePath e cfg)],
       some .notOurWorktree) := by
    simp [Bootstrap.createWorktree, hexist, hrev, hv]
  by_cases hbare : e.fsExists e.barePath
  · simp [Bootstrap.main, hload, hbare, Bootstrap.afterClone, hcw,
      Outcome.isFailure]
  · by_cases hcl : e.cloneOk
    · simp [Bootstrap.main, hload, hbare, hcl, Bootstrap.afterClone, hcw,
        Bootstrap.cloneBareRepo, Outcome.isFailure]
    · simp [Bootstrap.main, hload, hbare, hcl, Bootstrap.cloneBareRepo,
        Outcome.isFailure]

/-- Witness for C5: a linkage file pointing outside `.bare` makes
bootstrap fail. -/
theorem bootstrap_bad_linkage_no_install_witness :
    (Bootstrap.main bsEnvBadLinkage).2.isFailure = true :=
  (bootstrap_bad_linkage_no_install bsEnvBadLinkage cfgSample rfl rfl rfl
    (Or.inr (Or.inr (Or.inr
      ⟨"gitdir: /elsewhere/worktrees/main", rfl, rfl⟩)))).1

/-- C6: a `corepack enable` failure is non-fatal — execution continues to
the dependency installation — whereas a dependency-installation failure in
the main worktree is fatal: the outcome is success exactly when the
install succeeds, regardless of `corepackOk`. -/
theorem bootstrap_corepack_nonfatal_install_fatal
    (e : Bootstrap.Env) (cfg : ProjectConfig)
    (hload : Bootstrap.loadConfig (e.fsExists e.configPath) e.rawConfig =
      .ok cfg)
    (hclone : e.fsExists e.barePath = true ∨ e.cloneOk = true)
    (hcw : (Bootstrap.createWorktree e cfg).2 = none) :
    Cmd.corepackEnable ∈ (Bootstrap.main e).1 ∧
    Cmd.pnpmInstall (Bootstrap.mainWorktreePath e cfg) ∈ (Bootstrap.main e).1 ∧
    (Bootstrap.main e).2 =
      (if e.installOk then Outcome.success else .exit1 .installFailed) := by
  by_cases hbare : e.fsExists e.barePath
  · simp [Bootstrap.main, hload, hbare, Bootstrap.afterClone, hcw,
      Bootstrap.enableCorepack, Bootstrap.installDependencies]
  · rcases hclone with h | h
    · rw [h] at hbare; exact absurd rfl hbare
    · simp [Bootstrap.main, hload, hbare, h, Bootstrap.afterClone, hcw,
        Bootstrap.enableCorepack, Bootstrap.installDependencies]

/-- Witness for C6: with `corepack enable` failing and everything else
healthy, bootstrap still reaches both the corepack step and the install
step. -/
theorem bootstrap_corepack_nonfatal_install_fatal_witness :
    Cmd.corepackEnable ∈ (Bootstrap.main bsEnvCorepackFail).1 ∧
    Cmd.pnpmInstall "/r/worktrees/main" ∈ (Bootstrap.main bsEnvCorepackFail).1 := by
  have h := bootstrap_corepack_nonfatal_install_fatal bsEnvCorepackFail
    cfgSample rfl (Or.inl rfl) rfl
  exact ⟨h.1, h.2.1⟩

/-- C7: both loaders apply the defaults in place on the parsed record:
`defaultBranch` absent or empty becomes `"main"`, a missing `worktrees`
object or an absent/empty `worktrees.root` becomes root `"worktrees"`,
and the other fields (`remote`, `branchSanitizer`) are returned
unchanged.  The loaders are pure on the model: they issue no command,
matching "the configuration file is never written back". -/
theorem loadConfig_applies_defaults :
    (∀ (f : Bool) (raw : RawConfig) (cfg : ProjectConfig),
      CreateWorktree.loadConfig f (some raw) = .ok cfg →
      cfgDefaultsSpec raw cfg) ∧
    (∀ (f : Bool) (raw : RawConfig) (cfg : ProjectConfig),
      Bootstrap.loadConfig f (some raw) = .ok cfg →
      cfgDefaultsSpec raw cfg) := by
  have key : ∀ (wo : Option RawWorktrees) (dbo : Option String) (r : String),
      cfgDefaultsSpec
        { codebase := some { remote := some r, defaultBranch := dbo }
          worktrees := wo }
        (applyDefaults
          { codebase := some { remote := some r, defaultBranch := dbo }
            worktrees := wo }
          { remote := some r, defaultBranch := dbo } r) := by
    intro wo dbo r
    rcases wo with _ | ⟨roo, bso⟩
    · cases dbo <;> simp [cfgDefaultsSpec, applyDefaults, jsOrDefault]
    · cases dbo <;> cases roo <;>
        simp [cfgDefaultsSpec, applyDefaults, jsOrDefault]
  constructor
  · intro f raw cfg h
    obtain ⟨cbo, wo⟩ := raw
    by_cases hf : f
    · cases cbo with
      | none => simp [CreateWorktree.loadConfig, hf] at h
      | some cb =>
          obtain ⟨ro, dbo⟩ := cb
          cases ro with
          | none => simp [CreateWorktree.loadConfig, hf] at h
          | some r =>
              by_cases hr : r = ""
              · simp [CreateWorktree.loadConfig, hf, hr] at h
              · simp [CreateWorktree.loadConfig, hf, hr] at h
                subst h
                exact key wo dbo r
    · simp [CreateWorktree.loadConfig, hf] at h
  · intro f raw cfg h
    obtain ⟨cbo, wo⟩ := raw
    by_cases hf : f
    · cases cbo with
      | none => simp [Bootstrap.loadConfig, hf] at h
      | some cb =>
          obtain ⟨ro, dbo⟩ := cb
          cases ro with
          | none => simp [Bootstrap.loadConfig, hf] at h
          | some r =>
              by_cases hr : jsTrim r = ""
              · simp [Bootstrap.loadConfig, hf, hr] at h
              · simp [Bootstrap.loadConfig, hf, hr] at h
                subst h
                exact key wo dbo r
    · simp [Bootstrap.loadConfig, hf] at h

/-- Witness for C7: a configuration with `defaultBranch` and `worktrees`
both absent loads with `defaultBranch = "main"` and
`worktrees.root = "worktrees"`, remote unchanged. -/
theorem loadConfig_applies_defaults_witness :
    cfgDefaultsSpec rawDefaults cfgDefaults :=
  loadConfig_applies_defaults.1 true rawDefaults cfgDefaults rfl
